import Mathlib

/-!
Shallow embedding of the reactive form-validation state manager
(useForm composable) for verification of its specification.

Two source variants are embedded:
- namespace FormV1: the variant with a three-flag FieldMeta
  (touched, dirty, invalid) whose setFieldValue and setFormValues also
  mark metadata, whose full-form entry point is called validateForm, and
  whose interaction handlers take a field name directly.
- namespace FormV2: the variant with a four-flag FieldMeta
  (touched, dirty, invalid, validated) whose full-form entry point is
  called validate.

JavaScript values held by fields are modelled by the inductive type Val
(undefined sentinel, strings, integers). The external zod schema is
modelled as a finite list of field names together with a per-field check
returning the ordered list of issue messages (empty list means success);
this matches how the code uses z.object schemas: schema.pick narrows to a
single field, and full-object safeParse collects per-field issue lists
independently. Error maps and metadata maps are total functions from
field names, with fields outside the schema carrying defaults.

The nextTick deferral in the handlers is modelled by returning, next to
the synchronously updated state, the list of validation tasks that the
handler schedules; running a scheduled task is applying the
corresponding operation to a later state.
-/

namespace NuxtForm

/-- A JavaScript field value: the undefined sentinel, a string or a number. -/
inductive Val where
  | undef : Val
  | str : String → Val
  | num : Int → Val
deriving DecidableEq, Repr

/-- The external validator for one field: ordered issue messages, empty means valid. -/
def IssueList := List String

/-- The zod object schema: its field names and the per-field constraint check. -/
structure Schema where
  keys : List String
  check : String → Val → List String

/-- Pre-submit validation mode of the trigger policy. -/
inductive Mode where
  | touch | eager | lazy | smartLazy | aggressive | submit
deriving DecidableEq, Repr

/-- Post-submit validation mode of the trigger policy. -/
inductive ModeAfterSubmit where
  | input | blur | submit
deriving DecidableEq, Repr

/-- Construction options of useForm: schema, partial initial values, modes. -/
structure Config where
  schema : Schema
  initialValues : String → Option Val
  mode : Mode
  modeAfterSubmit : ModeAfterSubmit

/-- The seed of the field store: schema default-undefined values merged
with caller-supplied initial values, as in the spread of defaultValues
with initialValues. -/
def Config.seed (cfg : Config) : String → Val :=
  fun f => (cfg.initialValues f).getD Val.undef

/-- A scheduled deferred task: a real single-field validation, or the
eager-mode dry-run chain (dry run, and when it succeeds mark touched
and schedule a real validation). -/
inductive Task where
  | validateField (f : String)
  | eagerDryRun (f : String)
deriving DecidableEq, Repr

/-- The structured per-field entry of the results record returned by
full-form validation. -/
structure PerFieldResult where
  errors : List String
  valid : Bool
deriving DecidableEq, Repr

namespace FormV1

/-- Per-field metadata of the three-flag variant. -/
structure FieldMeta where
  touched : Bool
  dirty : Bool
  invalid : Bool
deriving DecidableEq, Repr

/-- Initial per-field metadata: all flags false. -/
def FieldMeta.initial : FieldMeta := ⟨false, false, false⟩

/-- Derived form-level metadata. -/
structure FormMeta where
  touched : Bool
  dirty : Bool
  invalid : Bool
deriving DecidableEq, Repr

/-- The mutable state owned by one useForm instance. -/
structure FormState where
  values : String → Val
  fieldMeta : String → FieldMeta
  errors : String → Option String
  submitCount : Nat
  isSubmitting : Bool
  isValidating : Bool

/-- The state created at construction, before any mount-time validation. -/
def FormState.initial (cfg : Config) : FormState where
  values := cfg.seed
  fieldMeta := fun _ => FieldMeta.initial
  errors := fun _ => none
  submitCount := 0
  isSubmitting := false
  isValidating := false

/-- isSubmitted is the computed submitCount greater than zero. -/
def isSubmitted (s : FormState) : Bool := s.submitCount > 0

/-- formMeta: each form flag is the disjunction of that flag over the
per-field metadata of the schema fields. -/
def formMeta (cfg : Config) (s : FormState) : FormMeta where
  touched := cfg.schema.keys.any (fun f => (s.fieldMeta f).touched)
  dirty := cfg.schema.keys.any (fun f => (s.fieldMeta f).dirty)
  invalid := cfg.schema.keys.any (fun f => (s.fieldMeta f).invalid)

/-- clearErrors: replace the error map with the empty record. -/
def clearErrors (s : FormState) : FormState :=
  { s with errors := fun _ => none }

/-- setFieldTouched writes the given boolean into the touched flag. -/
def setFieldTouched (f : String) (v : Bool) (s : FormState) : FormState :=
  { s with fieldMeta := fun g =>
      if g = f then { s.fieldMeta g with touched := v } else s.fieldMeta g }

/-- reset: assign the cloned seed over the values and clear the errors.
The source touches no metadata here. -/
def reset (cfg : Config) (s : FormState) : FormState :=
  clearErrors { s with values := cfg.seed }

/-- setFieldValue: write the cloned value, mark dirty, mark touched. -/
def setFieldValue (f : String) (v : Val) (s : FormState) : FormState :=
  setFieldTouched f true
    { s with
      values := fun g => if g = f then v else s.values g,
      fieldMeta := fun g =>
        if g = f then { s.fieldMeta g with dirty := true } else s.fieldMeta g }

/-- setFormValues: assign the supplied partial record over the values,
then mark every schema field dirty and touched. -/
def setFormValues (cfg : Config) (p : String → Option Val) (s : FormState) : FormState :=
  { s with
    values := fun g => (p g).getD (s.values g),
    fieldMeta := fun g =>
      if g ∈ cfg.schema.keys then
        { s.fieldMeta g with dirty := true, touched := true }
      else s.fieldMeta g }

/-- setFieldError: direct injection of an error message for one field. -/
def setFieldError (f : String) (e : String) (s : FormState) : FormState :=
  { s with errors := fun g => if g = f then some e else s.errors g }

/-- The issue list the narrowed single-field schema produces for the
current value of the field. -/
def fieldIssues (cfg : Config) (s : FormState) (f : String) : List String :=
  cfg.schema.check f (s.values f)

/-- validateFieldDryRun: parse the field against its narrowed schema and
return only the success boolean; the source performs no writes. -/
def validateFieldDryRun (cfg : Config) (f : String) (s : FormState) : FormState × Bool :=
  (s, (fieldIssues cfg s f).isEmpty)

/-- The structured return value of validateField. -/
structure FieldResult where
  valid : Bool
  error : Option String
  errors : List String
deriving DecidableEq, Repr

/-- validateField: parse the field, record invalid from the parse
outcome, then on success clear the field error, on failure store the
first issue message. -/
def validateField (cfg : Config) (f : String) (s : FormState) : FormState × FieldResult :=
  let issues := fieldIssues cfg s f
  let s₁ := { s with fieldMeta := fun g =>
      if g = f then { s.fieldMeta g with invalid := !issues.isEmpty } else s.fieldMeta g }
  if issues.isEmpty then
    ({ s₁ with errors := fun g => if g = f then none else s₁.errors g },
     { valid := true, error := none, errors := [] })
  else
    ({ s₁ with errors := fun g => if g = f then issues.head? else s₁.errors g },
     { valid := false, error := issues.head?, errors := issues })

/-- The structured return value of validateForm. -/
structure FormResult where
  valid : Bool
  errors : String → Option String
  results : String → PerFieldResult

/-- validateForm: parse the whole object, force touched on every schema
field, clear the error map, then for each field with issues store its
first message and its full issue list; fields without issues keep the
empty valid entry. The source writes no invalid flag here. -/
def validateForm (cfg : Config) (s : FormState) : FormState × FormResult :=
  let issues := fun f => fieldIssues cfg s f
  let valid := cfg.schema.keys.all (fun f => (issues f).isEmpty)
  let s₁ := { s with fieldMeta := fun g =>
      if g ∈ cfg.schema.keys then { s.fieldMeta g with touched := true } else s.fieldMeta g }
  let s₂ := clearErrors s₁
  let errs : String → Option String := fun g =>
    if g ∈ cfg.schema.keys ∧ ¬ (issues g).isEmpty then (issues g).head? else none
  let results : String → PerFieldResult := fun g =>
    if g ∈ cfg.schema.keys ∧ ¬ (issues g).isEmpty then
      { errors := issues g, valid := (issues g).isEmpty }
    else
      { errors := [], valid := true }
  ({ s₂ with errors := errs },
   { valid := valid, errors := errs, results := results })

/-- Which callback the submit handler invoked, with its argument. -/
inductive SubmitOutcome where
  | onValid (values : String → Val)
  | onInvalid (results : String → PerFieldResult)

/-- First statement of the submit handler: increment the submit count. -/
def submitIncCount (s : FormState) : FormState :=
  { s with submitCount := s.submitCount + 1 }

/-- Second phase: the write to the isSubmitted computed is a no-op
(computed refs have no setter), and isValidating is set true. -/
def submitStartValidating (s : FormState) : FormState :=
  { s with isValidating := true }

/-- After awaiting validateForm: isValidating is set back to false. -/
def submitStopValidating (s : FormState) : FormState :=
  { s with isValidating := false }

/-- Last statement of the submit handler: isSubmitting is set false. -/
def submitFinish (s : FormState) : FormState :=
  { s with isSubmitting := false }

/-- The callable returned by handleSubmit: increment the count, set
isValidating, run validateForm, clear isValidating, invoke onValid with
the values on success or onInvalid with the results on failure, then set
isSubmitting false. -/
def submit (cfg : Config) (s : FormState) : FormState × SubmitOutcome :=
  let s₁ := submitIncCount s
  let s₂ := submitStartValidating s₁
  let vr := validateForm cfg s₂
  let s₃ := vr.1
  let s₄ := submitStopValidating s₃
  let out := if vr.2.valid then FormV1.SubmitOutcome.onValid s₄.values
             else FormV1.SubmitOutcome.onInvalid vr.2.results
  (submitFinish s₄, out)

/-- The input interaction handler: mark dirty synchronously; when
submitted, schedule a validation only when the post-submit mode is
input and skip the pre-submit switch; otherwise dispatch on the mode. -/
def onInput (cfg : Config) (f : String) (s : FormState) : FormState × List Task :=
  let s₁ := { s with fieldMeta := fun g =>
      if g = f then { s.fieldMeta g with dirty := true } else s.fieldMeta g }
  if isSubmitted s then
    if cfg.modeAfterSubmit = ModeAfterSubmit.input then (s₁, [Task.validateField f])
    else (s₁, [])
  else
    match cfg.mode with
    | Mode.aggressive => (s₁, [Task.validateField f])
    | Mode.touch =>
        if (s₁.fieldMeta f).touched then (s₁, [Task.validateField f]) else (s₁, [])
    | Mode.eager =>
        if (s₁.fieldMeta f).touched then (s₁, [Task.validateField f])
        else (s₁, [Task.eagerDryRun f])
    | Mode.smartLazy =>
        if (s₁.fieldMeta f).invalid then (s₁, [Task.validateField f]) else (s₁, [])
    | Mode.lazy => (s₁, [])
    | Mode.submit => (s₁, [])

/-- The blur interaction handler: mark touched synchronously; when
submitted, schedule a validation only when the post-submit mode is blur
and skip the pre-submit switch; otherwise every mode except submit
schedules a validation. -/
def onBlur (cfg : Config) (f : String) (s : FormState) : FormState × List Task :=
  let s₁ := setFieldTouched f true s
  if isSubmitted s then
    if cfg.modeAfterSubmit = ModeAfterSubmit.blur then (s₁, [Task.validateField f])
    else (s₁, [])
  else
    match cfg.mode with
    | Mode.submit => (s₁, [])
    | _ => (s₁, [Task.validateField f])

/-- The deferred eager-mode chain scheduled by onInput on an untouched
field: run the dry run; when it succeeds, mark the field touched and
then run a real validateField. -/
def runEagerDryRun (cfg : Config) (f : String) (s : FormState) : FormState :=
  let dr := validateFieldDryRun cfg f s
  if dr.2 then (validateField cfg f (setFieldTouched f true dr.1)).1
  else dr.1

/-- Every state-changing public operation of the form instance,
including the synchronous part of the interaction handlers and the
deferred tasks they schedule. -/
inductive Op where
  | reset
  | setFieldValue (f : String) (v : Val)
  | setFormValues (p : String → Option Val)
  | setFieldError (f : String) (e : String)
  | setFieldTouched (f : String) (b : Bool)
  | validateField (f : String)
  | validateFieldDryRun (f : String)
  | validateForm
  | submit
  | input (f : String)
  | blur (f : String)
  | eagerDryRunTask (f : String)

/-- The state transition of one public operation. -/
def applyOp (cfg : Config) : Op → FormState → FormState
  | Op.reset, s => reset cfg s
  | Op.setFieldValue f v, s => setFieldValue f v s
  | Op.setFormValues p, s => setFormValues cfg p s
  | Op.setFieldError f e, s => setFieldError f e s
  | Op.setFieldTouched f b, s => setFieldTouched f b s
  | Op.validateField f, s => (validateField cfg f s).1
  | Op.validateFieldDryRun f, s => (validateFieldDryRun cfg f s).1
  | Op.validateForm, s => (validateForm cfg s).1
  | Op.submit, s => (submit cfg s).1
  | Op.input f, s => (onInput cfg f s).1
  | Op.blur f, s => (onBlur cfg f s).1
  | Op.eagerDryRunTask f, s => runEagerDryRun cfg f s

end FormV1

namespace FormV2

/-- Per-field metadata of the four-flag variant. -/
structure FieldMeta where
  touched : Bool
  dirty : Bool
  invalid : Bool
  validated : Bool
deriving DecidableEq, Repr

/-- Initial per-field metadata: all flags false. -/
def FieldMeta.initial : FieldMeta := ⟨false, false, false, false⟩

/-- The mutable state owned by one useForm instance of this variant. -/
structure FormState where
  values : String → Val
  fieldsMeta : String → FieldMeta
  errors : String → Option String
  submitCount : Nat
  isSubmitting : Bool
  isValidating : Bool

/-- The state created at construction, before any mount-time dry runs. -/
def FormState.initial (cfg : Config) : FormState where
  values := cfg.seed
  fieldsMeta := fun _ => FieldMeta.initial
  errors := fun _ => none
  submitCount := 0
  isSubmitting := false
  isValidating := false

/-- clearErrors: replace the error map with the empty record. -/
def clearErrors (s : FormState) : FormState :=
  { s with errors := fun _ => none }

/-- reset: assign the cloned seed over the values and clear the errors.
The source touches no metadata here. -/
def reset (cfg : Config) (s : FormState) : FormState :=
  clearErrors { s with values := cfg.seed }

/-- The issue list the narrowed single-field schema produces for the
current value of the field. -/
def fieldIssues (cfg : Config) (s : FormState) (f : String) : List String :=
  cfg.schema.check f (s.values f)

/-- validateField of this variant: parse the field, record invalid from
the parse outcome and set validated, then update the error entry. -/
def validateField (cfg : Config) (f : String) (s : FormState) : FormState × FormV1.FieldResult :=
  let issues := fieldIssues cfg s f
  let s₁ := { s with fieldsMeta := fun g =>
      if g = f then { s.fieldsMeta g with invalid := !issues.isEmpty, validated := true }
      else s.fieldsMeta g }
  if issues.isEmpty then
    ({ s₁ with errors := fun g => if g = f then none else s₁.errors g },
     { valid := true, error := none, errors := [] })
  else
    ({ s₁ with errors := fun g => if g = f then issues.head? else s₁.errors g },
     { valid := false, error := issues.head?, errors := issues })

/-- The structured return value of the full-form validate. -/
structure FormResult where
  valid : Bool
  errors : String → Option String
  results : String → PerFieldResult

/-- validate: parse the whole object, force touched and validated on
every schema field, clear the error map, then for each field with
issues store its first message and its full issue list; fields without
issues keep the empty valid entry. The source writes no invalid flag
here. -/
def validate (cfg : Config) (s : FormState) : FormState × FormResult :=
  let issues := fun f => fieldIssues cfg s f
  let valid := cfg.schema.keys.all (fun f => (issues f).isEmpty)
  let s₁ := { s with fieldsMeta := fun g =>
      if g ∈ cfg.schema.keys then { s.fieldsMeta g with touched := true, validated := true }
      else s.fieldsMeta g }
  let s₂ := clearErrors s₁
  let errs : String → Option String := fun g =>
    if g ∈ cfg.schema.keys ∧ ¬ (issues g).isEmpty then (issues g).head? else none
  let results : String → PerFieldResult := fun g =>
    if g ∈ cfg.schema.keys ∧ ¬ (issues g).isEmpty then
      { errors := issues g, valid := (issues g).isEmpty }
    else
      { errors := [], valid := true }
  ({ s₂ with errors := errs },
   { valid := valid, errors := errs, results := results })

end FormV2

/-!
Concrete fixtures: a two-field schema mirroring the demo form, with a
string field of minimal length three and a number field between 18 and
99, and the configuration used by the demo (smartLazy, post-submit
input, initial age 24).
-/

/-- The check of the name field: a string of length at least three. -/
def nameCheck : Val → List String
  | Val.str s => if s.length < 3 then ["String must contain at least 3 character(s)"] else []
  | _ => ["Required"]

/-- The check of the age field: a number between 18 and 99. -/
def ageCheck : Val → List String
  | Val.num n =>
      if n < 18 then ["Number must be greater than or equal to 18"]
      else if 99 < n then ["Number must be less than or equal to 99"]
      else []
  | _ => ["Required"]

/-- The demo schema with the two fields name and age. -/
def testSchema : Schema where
  keys := ["name", "age"]
  check := fun f v => if f = "name" then nameCheck v else if f = "age" then ageCheck v else []

/-- The demo configuration: smartLazy mode, post-submit input mode,
initial value 24 for age. -/
def testConfig : Config where
  schema := testSchema
  initialValues := fun f => if f = "age" then some (Val.num 24) else none
  mode := Mode.smartLazy
  modeAfterSubmit := ModeAfterSubmit.input

/-- A state of the three-flag variant reached after one submit. -/
def submittedState : FormV1.FormState :=
  ((FormV1.submit testConfig (FormV1.FormState.initial testConfig)).1)

/-- A state of the three-flag variant in which the name field has been
touched by a blur interaction. -/
def touchedDemoState : FormV1.FormState :=
  (FormV1.onBlur testConfig "name" (FormV1.FormState.initial testConfig)).1

/-- A state of the four-flag variant in which the name field has been
validated once and found invalid. -/
def resetDemoState : FormV2.FormState :=
  (FormV2.validateField testConfig "name" (FormV2.FormState.initial testConfig)).1

/-- The state after the first statement of a submit invocation started
from the pristine demo state: the submit count is incremented. -/
def submitTrace₁ : FormV1.FormState :=
  FormV1.submitIncCount (FormV1.FormState.initial testConfig)

/-- The state after the writes that precede the awaited validation. -/
def submitTrace₂ : FormV1.FormState :=
  FormV1.submitStartValidating submitTrace₁

/-- The state once the awaited full-form validation has completed. -/
def submitTrace₃ : FormV1.FormState :=
  (FormV1.validateForm testConfig submitTrace₂).1

/-- The state once isValidating has been set back to false; the
callbacks observe this state. -/
def submitTrace₄ : FormV1.FormState :=
  FormV1.submitStopValidating submitTrace₃

/-- The state at the end of the submit invocation. -/
def submitTrace₅ : FormV1.FormState :=
  (FormV1.submit testConfig (FormV1.FormState.initial testConfig)).1

/-- C6: validateFieldDryRun returns only the success boolean of the
narrowed parse and changes neither the errors map nor any FieldMeta
flag, in any state, including when the field fails validation. -/
theorem validateFieldDryRun_pure (cfg : Config) (s : FormV1.FormState) (f g : String) :
    (FormV1.validateFieldDryRun cfg f s).1.errors g = s.errors g ∧
    (FormV1.validateFieldDryRun cfg f s).1.fieldMeta g = s.fieldMeta g ∧
    (FormV1.validateFieldDryRun cfg f s).1 = s ∧
    (FormV1.validateFieldDryRun cfg f s).2 = (FormV1.fieldIssues cfg s f).isEmpty :=
  ⟨rfl, rfl, rfl, rfl⟩

/-- C9: running validateForm twice in succession with unchanged values
yields identical error maps, identical per-field results and the same
validity verdict. -/
theorem validateForm_idempotent (cfg : Config) (s : FormV1.FormState) (g : String) :
    (FormV1.validateForm cfg (FormV1.validateForm cfg s).1).2.errors g
      = (FormV1.validateForm cfg s).2.errors g ∧
    (FormV1.validateForm cfg (FormV1.validateForm cfg s).1).2.results g
      = (FormV1.validateForm cfg s).2.results g ∧
    (FormV1.validateForm cfg (FormV1.validateForm cfg s).1).2.valid
      = (FormV1.validateForm cfg s).2.valid ∧
    (FormV1.validateForm cfg (FormV1.validateForm cfg s).1).1.errors g
      = (FormV1.validateForm cfg s).1.errors g :=
  ⟨rfl, rfl, rfl, rfl⟩

/-- C10: setFieldError writes only the errors entry of the given field;
every FieldMeta, every value, the submit count and the derived form
metadata (in particular its invalid flag) are unchanged, so an injected
error can coexist with a false FormMeta.invalid. -/
theorem setFieldError_frame (cfg : Config) (s : FormV1.FormState) (f e g : String) :
    (FormV1.setFieldError f e s).errors f = some e ∧
    (g ≠ f → (FormV1.setFieldError f e s).errors g = s.errors g) ∧
    (FormV1.setFieldError f e s).fieldMeta g = s.fieldMeta g ∧
    (FormV1.setFieldError f e s).values g = s.values g ∧
    (FormV1.setFieldError f e s).submitCount = s.submitCount ∧
    FormV1.formMeta cfg (FormV1.setFieldError f e s) = FormV1.formMeta cfg s := by
  refine ⟨by simp [FormV1.setFieldError], ?_, rfl, rfl, rfl, rfl⟩
  intro hg
  simp [FormV1.setFieldError, hg]

/-- C10 witness: injecting a server error for the name field in the
pristine demo state leaves everything but that error entry unchanged;
in particular FormMeta.invalid stays false while the error map is
non-empty. -/
theorem setFieldError_frame_witness :
    (FormV1.setFieldError "name" "taken" (FormV1.FormState.initial testConfig)).errors "name"
      = some "taken" ∧
    ("age" ≠ "name" →
      (FormV1.setFieldError "name" "taken" (FormV1.FormState.initial testConfig)).errors "age"
        = (FormV1.FormState.initial testConfig).errors "age") ∧
    (FormV1.setFieldError "name" "taken" (FormV1.FormState.initial testConfig)).fieldMeta "age"
      = (FormV1.FormState.initial testConfig).fieldMeta "age" ∧
    (FormV1.setFieldError "name" "taken" (FormV1.FormState.initial testConfig)).values "age"
      = (FormV1.FormState.initial testConfig).values "age" ∧
    (FormV1.setFieldError "name" "taken" (FormV1.FormState.initial testConfig)).submitCount
      = (FormV1.FormState.initial testConfig).submitCount ∧
    FormV1.formMeta testConfig (FormV1.setFieldError "name" "taken" (FormV1.FormState.initial testConfig))
      = FormV1.formMeta testConfig (FormV1.FormState.initial testConfig) :=
  setFieldError_frame testConfig (FormV1.FormState.initial testConfig) "name" "taken" "age"

/-- C4 amended: reset restores the values to the construction seed and
empties the error map, but leaves every FieldMeta unchanged instead of
clearing it. -/
theorem reset_restores_values_and_errors (cfg : Config) (s : FormV2.FormState) (f : String) :
    (FormV2.reset cfg s).values f = cfg.seed f ∧
    (FormV2.reset cfg s).errors f = none ∧
    (FormV2.reset cfg s).fieldsMeta f = s.fieldsMeta f :=
  ⟨rfl, rfl, rfl⟩

/-- C4 counterexample: in a state in which the name field was validated
and found invalid, reset leaves its invalid and validated flags true,
so FieldMeta is not back to the all-false record. -/
theorem reset_counterexample :
    ((FormV2.reset testConfig resetDemoState).fieldsMeta "name").invalid = true ∧
    ((FormV2.reset testConfig resetDemoState).fieldsMeta "name").validated = true := by
  decide

/-- C3 amended: full-form validate forces touched and validated to true
on every schema field, but it leaves the invalid flag exactly as it was
before the call; only single-field validation recomputes invalid. -/
theorem validate_meta_update (cfg : Config) (s : FormV2.FormState) (f : String)
    (hf : f ∈ cfg.schema.keys) :
    ((FormV2.validate cfg s).1.fieldsMeta f).touched = true ∧
    ((FormV2.validate cfg s).1.fieldsMeta f).validated = true ∧
    ((FormV2.validate cfg s).1.fieldsMeta f).invalid = (s.fieldsMeta f).invalid := by
  simp [FormV2.validate, FormV2.clearErrors, hf]

/-- C3 witness: in the pristine demo state, full-form validate marks the
name field touched and validated and leaves its invalid flag as before. -/
theorem validate_meta_update_witness :
    "name" ∈ testConfig.schema.keys ∧
    (((FormV2.validate testConfig (FormV2.FormState.initial testConfig)).1.fieldsMeta "name").touched = true ∧
     ((FormV2.validate testConfig (FormV2.FormState.initial testConfig)).1.fieldsMeta "name").validated = true ∧
     ((FormV2.validate testConfig (FormV2.FormState.initial testConfig)).1.fieldsMeta "name").invalid
       = ((FormV2.FormState.initial testConfig).fieldsMeta "name").invalid) :=
  ⟨by decide,
   validate_meta_update testConfig (FormV2.FormState.initial testConfig) "name" (by decide)⟩

/-- C3 counterexample: from the pristine demo state, full-form validate
finds issues for the name field (its result entry is not valid and the
error map holds its first message), yet the invalid flag of the name
field is still false afterwards, so invalid does not equal whether the
validation found issues. -/
theorem validate_invalid_counterexample :
    ((FormV2.validate testConfig (FormV2.FormState.initial testConfig)).2.results "name").valid
      = false ∧
    ((FormV2.validate testConfig (FormV2.FormState.initial testConfig)).2.errors "name").isSome
      = true ∧
    ((FormV2.validate testConfig (FormV2.FormState.initial testConfig)).1.fieldsMeta "name").invalid
      = false := by
  decide

/-- C8: setFormValues assigns the supplied partial record over the
values and marks every schema field dirty and touched, whether or not
that field was supplied a value. -/
theorem setFormValues_marks_all (cfg : Config) (p : String → Option Val)
    (s : FormV1.FormState) (f g : String) (hf : f ∈ cfg.schema.keys) :
    ((FormV1.setFormValues cfg p s).fieldMeta f).dirty = true ∧
    ((FormV1.setFormValues cfg p s).fieldMeta f).touched = true ∧
    (FormV1.setFormValues cfg p s).values g = (p g).getD (s.values g) := by
  refine ⟨?_, ?_, rfl⟩ <;> simp [FormV1.setFormValues, hf]

/-- C8 witness: the Scenario D bulk set supplying only age on the
two-field demo schema marks the unsupplied name field dirty and touched
and leaves its value at the seed. -/
theorem setFormValues_marks_all_witness :
    "name" ∈ testConfig.schema.keys ∧
    (((FormV1.setFormValues testConfig
        (fun g => if g = "age" then some (Val.num 99) else none)
        (FormV1.FormState.initial testConfig)).fieldMeta "name").dirty = true ∧
     ((FormV1.setFormValues testConfig
        (fun g => if g = "age" then some (Val.num 99) else none)
        (FormV1.FormState.initial testConfig)).fieldMeta "name").touched = true ∧
     (FormV1.setFormValues testConfig
        (fun g => if g = "age" then some (Val.num 99) else none)
        (FormV1.FormState.initial testConfig)).values "name"
       = ((if "name" = "age" then some (Val.num 99) else none).getD
            ((FormV1.FormState.initial testConfig).values "name"))) :=
  ⟨by decide,
   setFormValues_marks_all testConfig
     (fun g => if g = "age" then some (Val.num 99) else none)
     (FormV1.FormState.initial testConfig) "name" "name" (by decide)⟩

/-- Helper: the first component of a conditional pair whose branches
share their first component. -/
theorem fst_ite_pair {α β : Type} (c : Prop) [Decidable c] (a : α) (x y : β) :
    (if c then (a, x) else (a, y)).1 = a := by
  split <;> rfl

/-- Helper: the synchronous state update of the input handler is the
dirty mark alone, in every mode and submit phase. -/
theorem onInput_state (cfg : Config) (f : String) (s : FormV1.FormState) :
    (FormV1.onInput cfg f s).1
      = { s with fieldMeta := fun g =>
            if g = f then { s.fieldMeta g with dirty := true } else s.fieldMeta g } := by
  unfold FormV1.onInput
  split
  · exact fst_ite_pair _ _ _ _
  · split <;> first
      | rfl
      | exact fst_ite_pair _ _ _ _

/-- Helper: the synchronous state update of the blur handler is the
touched mark alone, in every mode and submit phase. -/
theorem onBlur_state (cfg : Config) (f : String) (s : FormV1.FormState) :
    (FormV1.onBlur cfg f s).1 = FormV1.setFieldTouched f true s := by
  unfold FormV1.onBlur
  split
  · exact fst_ite_pair _ _ _ _
  · split <;> rfl

/-- C1: once submitted, the input handler schedules a validation of the
field exactly when the post-submit mode is input, the blur handler
exactly when it is blur, hence post-submit mode submit schedules
nothing on either event; and the scheduled tasks do not depend on the
pre-submit mode at all. -/
theorem post_submit_override (cfg : Config) (s : FormV1.FormState) (f : String) (m : Mode)
    (hsub : 0 < s.submitCount) :
    (FormV1.onInput cfg f s).2
      = (if cfg.modeAfterSubmit = ModeAfterSubmit.input then [Task.validateField f] else []) ∧
    (FormV1.onBlur cfg f s).2
      = (if cfg.modeAfterSubmit = ModeAfterSubmit.blur then [Task.validateField f] else []) ∧
    (cfg.modeAfterSubmit = ModeAfterSubmit.submit →
      (FormV1.onInput cfg f s).2 = [] ∧ (FormV1.onBlur cfg f s).2 = []) ∧
    (FormV1.onInput { cfg with mode := m } f s).2 = (FormV1.onInput cfg f s).2 ∧
    (FormV1.onBlur { cfg with mode := m } f s).2 = (FormV1.onBlur cfg f s).2 := by
  have hs : FormV1.isSubmitted s = true := by
    simp [FormV1.isSubmitted, hsub]
  cases hma : cfg.modeAfterSubmit <;>
    simp [FormV1.onInput, FormV1.onBlur, hs, hma]

/-- C1 witness: in the demo state reached by one submit, with
post-submit mode input, the input handler schedules the validation of
the name field, the blur handler schedules nothing, and the pre-submit
mode lazy makes no difference. -/
theorem post_submit_override_witness :
    0 < submittedState.submitCount ∧
    ((FormV1.onInput testConfig "name" submittedState).2
       = (if testConfig.modeAfterSubmit = ModeAfterSubmit.input
          then [Task.validateField "name"] else []) ∧
     (FormV1.onBlur testConfig "name" submittedState).2
       = (if testConfig.modeAfterSubmit = ModeAfterSubmit.blur
          then [Task.validateField "name"] else []) ∧
     (testConfig.modeAfterSubmit = ModeAfterSubmit.submit →
       (FormV1.onInput testConfig "name" submittedState).2 = [] ∧
       (FormV1.onBlur testConfig "name" submittedState).2 = []) ∧
     (FormV1.onInput { testConfig with mode := Mode.lazy } "name" submittedState).2
       = (FormV1.onInput testConfig "name" submittedState).2 ∧
     (FormV1.onBlur { testConfig with mode := Mode.lazy } "name" submittedState).2
       = (FormV1.onBlur testConfig "name" submittedState).2) :=
  ⟨by decide, post_submit_override testConfig submittedState "name" Mode.lazy (by decide)⟩

/-- C2: before the first submit, in smartLazy mode, an input event marks
the field dirty and schedules its validation exactly when the invalid
flag of the field is currently true. -/
theorem smartLazy_input_pre_submit (cfg : Config) (s : FormV1.FormState) (f : String)
    (hmode : cfg.mode = Mode.smartLazy) (hsub : s.submitCount = 0) :
    ((FormV1.onInput cfg f s).1.fieldMeta f).dirty = true ∧
    (FormV1.onInput cfg f s).2
      = (if (s.fieldMeta f).invalid then [Task.validateField f] else []) := by
  have hs : FormV1.isSubmitted s = false := by
    simp [FormV1.isSubmitted, hsub]
  cases hinv : (s.fieldMeta f).invalid <;>
    simp [FormV1.onInput, hs, hmode, hinv]

/-- C2 witness: in the pristine demo state the age field is clean, so an
input event marks it dirty and schedules nothing; after the name field
has shown an error, an input event on it schedules its validation. -/
theorem smartLazy_input_pre_submit_witness :
    (testConfig.mode = Mode.smartLazy ∧
     (FormV1.FormState.initial testConfig).submitCount = 0) ∧
    (((FormV1.onInput testConfig "age" (FormV1.FormState.initial testConfig)).1.fieldMeta "age").dirty
       = true ∧
     (FormV1.onInput testConfig "age" (FormV1.FormState.initial testConfig)).2
       = (if ((FormV1.FormState.initial testConfig).fieldMeta "age").invalid
          then [Task.validateField "age"] else [])) :=
  ⟨⟨by decide, by decide⟩,
   smartLazy_input_pre_submit testConfig (FormV1.FormState.initial testConfig) "age"
     (by decide) (by decide)⟩

/-- Characterization of the submit flow as implemented: the callable
returned by handleSubmit increments the submit count exactly once, sets
isValidating to true for the duration of the full-form validation
(isSubmitting is left untouched until the end), invokes onValid with
the values when validation succeeds and onInvalid with the per-field
results when it fails, and finally sets isSubmitting to false; it never
sets isSubmitting to true. -/
theorem handleSubmit_spec (cfg : Config) (s : FormV1.FormState) :
    (FormV1.submit cfg s).1.submitCount = s.submitCount + 1 ∧
    (FormV1.submitStartValidating (FormV1.submitIncCount s)).isValidating = true ∧
    (FormV1.submitStartValidating (FormV1.submitIncCount s)).isSubmitting = s.isSubmitting ∧
    (FormV1.submitStopValidating
        ((FormV1.validateForm cfg (FormV1.submitStartValidating (FormV1.submitIncCount s))).1)).isSubmitting
      = s.isSubmitting ∧
    (FormV1.submit cfg s).1.isSubmitting = false ∧
    (FormV1.submit cfg s).1.isValidating = false ∧
    (FormV1.submit cfg s).2
      = (if (FormV1.validateForm cfg s).2.valid then FormV1.SubmitOutcome.onValid s.values
         else FormV1.SubmitOutcome.onInvalid (FormV1.validateForm cfg s).2.results) :=
  ⟨rfl, rfl, rfl, rfl, rfl, rfl, rfl⟩

/-- C7: along the whole submit invocation started from the pristine
demo state, isSubmitting is false at every intermediate state; the
handler never sets it to true, although it does set it to false at the
end and the consuming component binds its loading indicator to it. -/
theorem handleSubmit_isSubmitting_counterexample :
    (FormV1.FormState.initial testConfig).isSubmitting = false ∧
    submitTrace₁.isSubmitting = false ∧
    submitTrace₂.isSubmitting = false ∧
    submitTrace₃.isSubmitting = false ∧
    submitTrace₄.isSubmitting = false ∧
    submitTrace₅.isSubmitting = false := by
  decide

/-- Helper: single-field validation rewrites only the invalid flag; the
touched and dirty flags of every field are unchanged. -/
theorem validateField_meta (cfg : Config) (g : String) (s : FormV1.FormState) (f : String) :
    ((FormV1.validateField cfg g s).1.fieldMeta f).touched = (s.fieldMeta f).touched ∧
    ((FormV1.validateField cfg g s).1.fieldMeta f).dirty = (s.fieldMeta f).dirty := by
  simp only [FormV1.validateField]
  split <;> constructor <;> dsimp only <;> split_ifs <;> rfl

/-- Helper: full-form validation raises touched on schema fields and
never changes any dirty flag. -/
theorem validateForm_meta (cfg : Config) (s : FormV1.FormState) (f : String) :
    ((s.fieldMeta f).touched = true → ((FormV1.validateForm cfg s).1.fieldMeta f).touched = true) ∧
    ((FormV1.validateForm cfg s).1.fieldMeta f).dirty = (s.fieldMeta f).dirty := by
  simp only [FormV1.validateForm, FormV1.clearErrors]
  constructor
  · intro h
    try dsimp only
    split_ifs <;> simp [h]
  · dsimp only
    split_ifs <;> rfl

/-- Helper: the submit flow changes field metadata exactly as its inner
full-form validation does. -/
theorem submit_meta (cfg : Config) (s : FormV1.FormState) (f : String) :
    ((s.fieldMeta f).touched = true → ((FormV1.submit cfg s).1.fieldMeta f).touched = true) ∧
    ((FormV1.submit cfg s).1.fieldMeta f).dirty = (s.fieldMeta f).dirty :=
  validateForm_meta cfg (FormV1.submitStartValidating (FormV1.submitIncCount s)) f

/-- Helper: the deferred eager chain can only raise touched and never
changes any dirty flag. -/
theorem runEagerDryRun_meta (cfg : Config) (g : String) (s : FormV1.FormState) (f : String) :
    ((s.fieldMeta f).touched = true → ((FormV1.runEagerDryRun cfg g s).fieldMeta f).touched = true) ∧
    ((FormV1.runEagerDryRun cfg g s).fieldMeta f).dirty = (s.fieldMeta f).dirty := by
  constructor
  · intro h
    simp only [FormV1.runEagerDryRun, FormV1.validateFieldDryRun]
    split
    · rw [(validateField_meta cfg g (FormV1.setFieldTouched g true s) f).1]
      simp only [FormV1.setFieldTouched]
      try dsimp only
      split_ifs <;> simp [h]
    · exact h
  · simp only [FormV1.runEagerDryRun, FormV1.validateFieldDryRun]
    split
    · rw [(validateField_meta cfg g (FormV1.setFieldTouched g true s) f).2]
      simp only [FormV1.setFieldTouched]
      try dsimp only
      split_ifs <;> rfl
    · rfl

/-- C5 amended: the touched and dirty flags never regress under any
public operation other than an explicit setFieldTouched with value
false; in particular reset also leaves them unchanged rather than
clearing them, and the invalid flag is recomputed by each single-field
validation. -/
theorem touched_dirty_monotonic (cfg : Config) (op : FormV1.Op) (s : FormV1.FormState)
    (f : String) (hop : ∀ g, op ≠ FormV1.Op.setFieldTouched g false) :
    ((s.fieldMeta f).touched = true → ((FormV1.applyOp cfg op s).fieldMeta f).touched = true) ∧
    ((s.fieldMeta f).dirty = true → ((FormV1.applyOp cfg op s).fieldMeta f).dirty = true) := by
  cases op with
  | reset => exact ⟨id, id⟩
  | setFieldError g e => exact ⟨id, id⟩
  | validateFieldDryRun g => exact ⟨id, id⟩
  | setFieldValue g v =>
      constructor <;> intro h <;>
        · simp only [FormV1.applyOp, FormV1.setFieldValue, FormV1.setFieldTouched]
          try dsimp only
          split_ifs <;> simp_all
  | setFormValues p =>
      constructor <;> intro h <;>
        · simp only [FormV1.applyOp, FormV1.setFormValues]
          try dsimp only
          split_ifs <;> simp_all
  | setFieldTouched g b =>
      cases b with
      | false => exact absurd rfl (hop g)
      | true =>
          constructor <;> intro h <;>
            · simp only [FormV1.applyOp, FormV1.setFieldTouched]
              try dsimp only
              split_ifs <;> simp_all
  | validateField g =>
      constructor <;> intro h
      · simp only [FormV1.applyOp]
        rw [(validateField_meta cfg g s f).1]
        exact h
      · simp only [FormV1.applyOp]
        rw [(validateField_meta cfg g s f).2]
        exact h
  | validateForm =>
      refine ⟨(validateForm_meta cfg s f).1, fun h => ?_⟩
      simp only [FormV1.applyOp]
      rw [(validateForm_meta cfg s f).2]
      exact h
  | submit =>
      refine ⟨(submit_meta cfg s f).1, fun h => ?_⟩
      simp only [FormV1.applyOp]
      rw [(submit_meta cfg s f).2]
      exact h
  | input g =>
      constructor <;> intro h <;>
        · simp only [FormV1.applyOp, onInput_state]
          try dsimp only
          split_ifs <;> simp_all
  | blur g =>
      constructor <;> intro h <;>
        · simp only [FormV1.applyOp, onBlur_state, FormV1.setFieldTouched]
          try dsimp only
          split_ifs <;> simp_all
  | eagerDryRunTask g =>
      refine ⟨(runEagerDryRun_meta cfg g s f).1, fun h => ?_⟩
      simp only [FormV1.applyOp]
      rw [(runEagerDryRun_meta cfg g s f).2]
      exact h

/-- C5 witness: in the demo state in which the name field has been
touched by a blur, a full-form validation leaves its touched and dirty
flags raised. -/
theorem touched_dirty_monotonic_witness :
    ((touchedDemoState.fieldMeta "name").touched = true →
      ((FormV1.applyOp testConfig FormV1.Op.validateForm touchedDemoState).fieldMeta "name").touched
        = true) ∧
    ((touchedDemoState.fieldMeta "name").dirty = true →
      ((FormV1.applyOp testConfig FormV1.Op.validateForm touchedDemoState).fieldMeta "name").dirty
        = true) :=
  touched_dirty_monotonic testConfig FormV1.Op.validateForm touchedDemoState "name"
    (fun _ h => FormV1.Op.noConfusion h)

/-- C5 counterexample: the public setFieldTouched operation with value
false, which is not reset, lowers a raised touched flag. -/
theorem setFieldTouched_untouch_counterexample :
    (touchedDemoState.fieldMeta "name").touched = true ∧
    ((FormV1.applyOp testConfig (FormV1.Op.setFieldTouched "name" false)
        touchedDemoState).fieldMeta "name").touched = false := by
  decide

end NuxtForm
